import Mathlib

/-!
Shallow embedding of `internal/pgbouncer/management/controller/instance.go`:
the pgbouncer pause/resume controller (`pgBouncerInstance` with its
`Paused`, `Pause`, `Resume` methods and the `NewPgBouncerInstance`
constructor).

External effects (the connection pool and the command execution on the
admin connection) are modelled by an environment `Env` supplying, per
call, the outcome of `pool.Connection(db)` and the outcome of the n-th
`db.Exec(cmd)`.  Each operation returns its Go error (`Option GoError`,
`none` = nil), the updated instance state, and a trace of the events it
performed (network calls and lock acquisitions), in order.
-/

/-- Go `error` values as they occur in this file: the sentinel
`os.ErrNotExist`, wrapping via `fmt.Errorf("...: %w", err)`, and arbitrary
other errors produced by the collaborators. -/
inductive GoError where
  | errNotExist : GoError
  | wrapped : String → GoError → GoError
  | other : String → GoError
deriving DecidableEq

/-- Go `errors.Is(err, target)`: reports whether `target` appears in
`err`'s unwrap chain (for this error model, equality or a `wrapped`
ancestor chain leading to `target`). -/
def errorsIs : GoError → GoError → Bool
  | e, target =>
    if e = target then true
    else
      match e with
      | GoError.wrapped _ cause => errorsIs cause target
      | _ => false

/-- The retry predicate passed to `retry.OnError` inside `Pause`:

```go
func(err error) bool {
    if errors.Is(err, os.ErrNotExist) {
        return true
    }
    return true
}
```
-/
def pauseRetryPredicate (err : GoError) : Bool :=
  if errorsIs err GoError.errNotExist then true
  else true

/-- `retry.DefaultBackoff` from k8s.io/client-go/util/retry has
`Steps: 4`: `wait.ExponentialBackoff` evaluates the condition at most four
times.  The delays and jitter are timing-only and are not modelled. -/
def defaultBackoffSteps : Nat := 4

/-- One run of `wait.ExponentialBackoff` as driven by `retry.OnError`:
`steps` remaining attempts, `done` attempts performed so far, `lastErr`
the last retriable error seen.  `attempts n` is the outcome of the n-th
execution of the function (`none` = nil error).  Returns the error
`retry.OnError` returns (`none` = nil) together with the total number of
attempts performed.  On success stop; on a retriable error continue; on a
non-retriable error return it; when the step budget is exhausted return
`lastErr` (this is `OnError` replacing `ErrWaitTimeout` by the last
observed error). -/
def retryOnErrorAux (retriable : GoError → Bool) (attempts : Nat → Option GoError) :
    Nat → Nat → Option GoError → Option GoError × Nat
  | 0, done, lastErr => (lastErr, done)
  | steps + 1, done, _ =>
    match attempts done with
    | none => (none, done + 1)
    | some e =>
      if retriable e then retryOnErrorAux retriable attempts steps (done + 1) (some e)
      else (some e, done + 1)

/-- `retry.OnError(backoff, retriable, fn)` with `backoff.Steps = steps`. -/
def retryOnError (steps : Nat) (retriable : GoError → Bool)
    (attempts : Nat → Option GoError) : Option GoError × Nat :=
  retryOnErrorAux retriable attempts steps 0 none

/-- An observable event performed by an operation, in program order:
a `pool.Connection(db)` call, a `db.Exec(cmd)` call, and the read/write
lock acquisitions and releases on `p.mu`. -/
inductive Event where
  | getConnection : String → Event
  | exec : String → Event
  | acquireRead : Event
  | releaseRead : Event
  | acquireWrite : Event
  | releaseWrite : Event
deriving DecidableEq

/-- Network events are the pool/exec calls; lock events are not. -/
def Event.isNetwork : Event → Bool
  | Event.getConnection _ => true
  | Event.exec _ => true
  | _ => false

/-- The observable state of a `pgBouncerInstance`: the cached `paused`
flag.  The `mu` lock is represented by the lock events in the traces, and
the `pool` field by the environment. -/
structure pgBouncerInstance where
  paused : Bool
deriving DecidableEq

/-- `NewPgBouncerInstance` constructs the instance with `paused: false`. -/
def NewPgBouncerInstance : pgBouncerInstance := { paused := false }

/-- Behaviour of the external collaborators during one operation call:
`conn db` is the outcome of `pool.Connection(db)` (`none` = success), and
`exec cmd n` the outcome of the n-th `Exec(cmd)` on the obtained handle
(`none` = nil error). -/
structure Env where
  conn : String → Option GoError
  exec : String → Nat → Option GoError

/-- Result of one `Pause`/`Resume` call: the returned Go error (`none` =
nil), the instance state afterwards, and the trace of events performed. -/
structure OpResult where
  err : Option GoError
  state : pgBouncerInstance
  trace : List Event
deriving DecidableEq

/-- `Paused()`: RLock, read `p.paused`, RUnlock.  The returned value. -/
def Paused (p : pgBouncerInstance) : Bool := p.paused

/-- The event trace of a `Paused()` call: it only takes the read lock. -/
def PausedEvents : List Event := [Event.acquireRead, Event.releaseRead]

/-- `Pause()`: connect to the `"pgbouncer"` database (on failure return
the wrapped connection error); then run `Exec("PAUSE")` under
`retry.OnError(retry.DefaultBackoff, pred, ...)` (on failure return the
resulting error as-is); on success take the write lock and set
`p.paused = true`. -/
def Pause (env : Env) (p : pgBouncerInstance) : OpResult :=
  match env.conn "pgbouncer" with
  | some e =>
    { err := some (GoError.wrapped "while connecting to pgbouncer database locally" e),
      state := p,
      trace := [Event.getConnection "pgbouncer"] }
  | none =>
    match retryOnError defaultBackoffSteps pauseRetryPredicate (env.exec "PAUSE") with
    | (some e, n) =>
      { err := some e,
        state := p,
        trace := Event.getConnection "pgbouncer" :: List.replicate n (Event.exec "PAUSE") }
    | (none, n) =>
      { err := none,
        state := { p with paused := true },
        trace := Event.getConnection "pgbouncer" :: List.replicate n (Event.exec "PAUSE")
                   ++ [Event.acquireWrite, Event.releaseWrite] }

/-- `Resume()`: connect to the `"pgbouncer"` database (on failure return
the wrapped connection error); then run `Exec("RESUME")` exactly once (on
failure return the error wrapped as "while resuming instance"); on
success take the write lock and set `p.paused = false`. -/
def Resume (env : Env) (p : pgBouncerInstance) : OpResult :=
  match env.conn "pgbouncer" with
  | some e =>
    { err := some (GoError.wrapped "while connecting to pgbouncer database locally" e),
      state := p,
      trace := [Event.getConnection "pgbouncer"] }
  | none =>
    match env.exec "RESUME" 0 with
    | some e =>
      { err := some (GoError.wrapped "while resuming instance" e),
        state := p,
        trace := [Event.getConnection "pgbouncer", Event.exec "RESUME"] }
    | none =>
      { err := none,
        state := { p with paused := false },
        trace := [Event.getConnection "pgbouncer", Event.exec "RESUME",
                  Event.acquireWrite, Event.releaseWrite] }

/-- A state-changing operation invoked on the instance, together with the
collaborator behaviour it meets. -/
inductive Op where
  | pause : Env → Op
  | resume : Env → Op

/-- The instance state after one operation. -/
def applyOp (p : pgBouncerInstance) : Op → pgBouncerInstance
  | Op.pause env => (Pause env p).state
  | Op.resume env => (Resume env p).state

/-- The instance state after a sequence of operations. -/
def run (p : pgBouncerInstance) : List Op → pgBouncerInstance
  | [] => p
  | op :: ops => run (applyOp p op) ops

/-- Whether an operation is a `Resume` call that returns success.
Success depends only on the environment, not on the instance state, so it
is evaluated at the fresh instance. -/
def opSucceedsResume : Op → Bool
  | Op.pause _ => false
  | Op.resume env => ((Resume env NewPgBouncerInstance).err).isNone

/-- Whether an operation is a `Pause` call that returns success. -/
def opSucceedsPause : Op → Bool
  | Op.pause env => ((Pause env NewPgBouncerInstance).err).isNone
  | Op.resume _ => false

/-- An error produced by `fmt.Errorf` wrapping (carries context). -/
def isWrapped : GoError → Bool
  | GoError.wrapped _ _ => true
  | _ => false

/-- Whether, after the events `t` have happened, the write lock is held. -/
def writeHeld (t : List Event) : Bool :=
  t.count Event.releaseWrite < t.count Event.acquireWrite

/-- Number of command executions (`Exec` calls) in a trace. -/
def execCount (t : List Event) : Nat :=
  t.countP (fun ev => match ev with | Event.exec _ => true | _ => false)

/-- Environment in which every collaborator call succeeds. -/
def envOk : Env := { conn := fun _ => none, exec := fun _ _ => none }

/-- Environment in which connection acquisition fails. -/
def envConnFail : Env :=
  { conn := fun _ => some (GoError.other "connection refused"), exec := fun _ _ => none }

/-- Environment in which the connection succeeds but every command
execution fails with the same error. -/
def envExecFail : Env :=
  { conn := fun _ => none, exec := fun _ _ => some (GoError.other "boom") }

/-! Rewriting equations for the retry loop. -/

lemma retryOnErrorAux_zero (r : GoError → Bool) (a : Nat → Option GoError)
    (done : Nat) (lastErr : Option GoError) :
    retryOnErrorAux r a 0 done lastErr = (lastErr, done) := rfl

lemma retryOnErrorAux_succ_ok (r : GoError → Bool) (a : Nat → Option GoError)
    (steps done : Nat) (lastErr : Option GoError) (h : a done = none) :
    retryOnErrorAux r a (steps + 1) done lastErr = (none, done + 1) := by
  unfold retryOnErrorAux
  rw [h]

lemma retryOnErrorAux_succ_retriable (r : GoError → Bool) (a : Nat → Option GoError)
    (steps done : Nat) (lastErr : Option GoError) (e : GoError)
    (h : a done = some e) (hr : r e = true) :
    retryOnErrorAux r a (steps + 1) done lastErr =
      retryOnErrorAux r a steps (done + 1) (some e) := by
  conv_lhs => unfold retryOnErrorAux
  rw [h]
  simp [hr]

/-- The number of attempts performed never exceeds the remaining budget. -/
lemma retryOnErrorAux_count_le (r : GoError → Bool) (a : Nat → Option GoError) :
    ∀ (steps done : Nat) (lastErr : Option GoError),
      (retryOnErrorAux r a steps done lastErr).2 ≤ done + steps := by
  intro steps
  induction steps with
  | zero => intro done lastErr; simp [retryOnErrorAux_zero]
  | succ s ih =>
    intro done lastErr
    cases h : a done with
    | none => rw [retryOnErrorAux_succ_ok r a s done lastErr h]; omega
    | some e =>
      cases hr : r e with
      | true =>
        rw [retryOnErrorAux_succ_retriable r a s done lastErr e h hr]
        have := ih (done + 1) (some e)
        omega
      | false =>
        unfold retryOnErrorAux
        rw [h]
        simp [hr]

/-- At least one attempt is performed when the budget is positive. -/
lemma retryOnErrorAux_count_pos (r : GoError → Bool) (a : Nat → Option GoError) :
    ∀ (steps done : Nat) (lastErr : Option GoError),
      done ≤ (retryOnErrorAux r a steps done lastErr).2 ∧
      (0 < steps → done < (retryOnErrorAux r a steps done lastErr).2) := by
  intro steps
  induction steps with
  | zero => intro done lastErr; simp [retryOnErrorAux_zero]
  | succ s ih =>
    intro done lastErr
    cases h : a done with
    | none => rw [retryOnErrorAux_succ_ok r a s done lastErr h]; omega
    | some e =>
      cases hr : r e with
      | true =>
        rw [retryOnErrorAux_succ_retriable r a s done lastErr e h hr]
        have := (ih (done + 1) (some e)).1
        omega
      | false =>
        unfold retryOnErrorAux
        rw [h]
        simp [hr]

/-- When every attempt in the remaining budget fails and every error is
retriable, the loop performs all attempts and returns the last error. -/
lemma retryOnErrorAux_all_fail (r : GoError → Bool) (a : Nat → Option GoError)
    (hr : ∀ e, r e = true) :
    ∀ (steps done : Nat) (lastErr : Option GoError), 0 < steps →
      (∀ i, i < steps → a (done + i) ≠ none) →
      retryOnErrorAux r a steps done lastErr = (a (done + steps - 1), done + steps) := by
  intro steps
  induction steps with
  | zero => intro done lastErr h0; omega
  | succ s ih =>
    intro done lastErr _ hfail
    obtain ⟨e, he⟩ : ∃ e, a done = some e := by
      have := hfail 0 (by omega)
      simp at this
      exact Option.ne_none_iff_exists'.mp this
    rw [retryOnErrorAux_succ_retriable r a s done lastErr e he (hr e)]
    cases s with
    | zero =>
      rw [retryOnErrorAux_zero]
      simp [he]
    | succ s2 =>
      have hstep : ∀ i, i < s2 + 1 → a (done + 1 + i) ≠ none := by
        intro i hi
        have h2 : done + 1 + i = done + (i + 1) := by omega
        rw [h2]
        exact hfail (i + 1) (by omega)
      rw [ih (done + 1) (some e) (by omega) hstep]
      have h3 : done + 1 + (s2 + 1) - 1 = done + (s2 + 1 + 1) - 1 := by omega
      have h4 : done + 1 + (s2 + 1) = done + (s2 + 1 + 1) := by omega
      rw [h3, h4]

/-- When some attempt within the budget succeeds and every error is
retriable, the loop returns success. -/
lemma retryOnErrorAux_success (r : GoError → Bool) (a : Nat → Option GoError)
    (hr : ∀ e, r e = true) :
    ∀ (steps done : Nat) (lastErr : Option GoError) (i : Nat), i < steps →
      a (done + i) = none →
      (retryOnErrorAux r a steps done lastErr).1 = none := by
  intro steps
  induction steps with
  | zero => intro done lastErr i hi; omega
  | succ s ih =>
    intro done lastErr i hi hok
    cases h : a done with
    | none => rw [retryOnErrorAux_succ_ok r a s done lastErr h]
    | some e =>
      rw [retryOnErrorAux_succ_retriable r a s done lastErr e h (hr e)]
      cases i with
      | zero => simp at hok; rw [hok] at h; exact Option.noConfusion h
      | succ j =>
        refine ih (done + 1) (some e) j (by omega) ?_
        have h2 : done + 1 + j = done + (j + 1) := by omega
        rw [h2]
        exact hok

/-! Characterization of the `Pause`/`Resume` branches. -/

lemma Pause_connFail (env : Env) (p : pgBouncerInstance) (e : GoError)
    (h : env.conn "pgbouncer" = some e) :
    Pause env p =
      { err := some (GoError.wrapped "while connecting to pgbouncer database locally" e),
        state := p,
        trace := [Event.getConnection "pgbouncer"] } := by
  unfold Pause
  rw [h]

lemma Pause_execFail (env : Env) (p : pgBouncerInstance) (e : GoError) (n : Nat)
    (hc : env.conn "pgbouncer" = none)
    (hr : retryOnError defaultBackoffSteps pauseRetryPredicate (env.exec "PAUSE") = (some e, n)) :
    Pause env p =
      { err := some e,
        state := p,
        trace := Event.getConnection "pgbouncer" :: List.replicate n (Event.exec "PAUSE") } := by
  unfold Pause
  rw [hc, hr]

lemma Pause_success (env : Env) (p : pgBouncerInstance) (n : Nat)
    (hc : env.conn "pgbouncer" = none)
    (hr : retryOnError defaultBackoffSteps pauseRetryPredicate (env.exec "PAUSE") = (none, n)) :
    Pause env p =
      { err := none,
        state := { p with paused := true },
        trace := Event.getConnection "pgbouncer" :: List.replicate n (Event.exec "PAUSE")
                   ++ [Event.acquireWrite, Event.releaseWrite] } := by
  unfold Pause
  rw [hc, hr]

lemma Resume_connFail (env : Env) (p : pgBouncerInstance) (e : GoError)
    (h : env.conn "pgbouncer" = some e) :
    Resume env p =
      { err := some (GoError.wrapped "while connecting to pgbouncer database locally" e),
        state := p,
        trace := [Event.getConnection "pgbouncer"] } := by
  unfold Resume
  rw [h]

lemma Resume_execFail (env : Env) (p : pgBouncerInstance) (e : GoError)
    (hc : env.conn "pgbouncer" = none) (he : env.exec "RESUME" 0 = some e) :
    Resume env p =
      { err := some (GoError.wrapped "while resuming instance" e),
        state := p,
        trace := [Event.getConnection "pgbouncer", Event.exec "RESUME"] } := by
  unfold Resume
  rw [hc, he]

lemma Resume_success (env : Env) (p : pgBouncerInstance)
    (hc : env.conn "pgbouncer" = none) (he : env.exec "RESUME" 0 = none) :
    Resume env p =
      { err := none,
        state := { p with paused := false },
        trace := [Event.getConnection "pgbouncer", Event.exec "RESUME",
                  Event.acquireWrite, Event.releaseWrite] } := by
  unfold Resume
  rw [hc, he]

/-- The error and the trace of a `Pause` call do not depend on the
instance state, and the state afterwards is determined by the error. -/
lemma Pause_cases (env : Env) (p : pgBouncerInstance) :
    ((Pause env p).err = none ∧ (Pause env p).state = { p with paused := true }) ∨
    ((Pause env p).err ≠ none ∧ (Pause env p).state = p) := by
  cases hc : env.conn "pgbouncer" with
  | some e => right; rw [Pause_connFail env p e hc]; simp
  | none =>
    cases hr : retryOnError defaultBackoffSteps pauseRetryPredicate (env.exec "PAUSE") with
    | mk res n =>
      cases res with
      | none => left; rw [Pause_success env p n hc hr]; exact ⟨rfl, rfl⟩
      | some e => right; rw [Pause_execFail env p e n hc hr]; simp

/-- The error and the trace of a `Resume` call do not depend on the
instance state, and the state afterwards is determined by the error. -/
lemma Resume_cases (env : Env) (p : pgBouncerInstance) :
    ((Resume env p).err = none ∧ (Resume env p).state = { p with paused := false }) ∨
    ((Resume env p).err ≠ none ∧ (Resume env p).state = p) := by
  cases hc : env.conn "pgbouncer" with
  | some e => right; rw [Resume_connFail env p e hc]; simp
  | none =>
    cases he : env.exec "RESUME" 0 with
    | none => left; rw [Resume_success env p hc he]; exact ⟨rfl, rfl⟩
    | some e => right; rw [Resume_execFail env p e hc he]; simp

lemma Pause_err_indep (env : Env) (p q : pgBouncerInstance) :
    (Pause env p).err = (Pause env q).err := by
  cases hc : env.conn "pgbouncer" with
  | some e => rw [Pause_connFail env p e hc, Pause_connFail env q e hc]
  | none =>
    cases hr : retryOnError defaultBackoffSteps pauseRetryPredicate (env.exec "PAUSE") with
    | mk res n =>
      cases res with
      | none => rw [Pause_success env p n hc hr, Pause_success env q n hc hr]
      | some e => rw [Pause_execFail env p e n hc hr, Pause_execFail env q e n hc hr]

lemma Resume_err_indep (env : Env) (p q : pgBouncerInstance) :
    (Resume env p).err = (Resume env q).err := by
  cases hc : env.conn "pgbouncer" with
  | some e => rw [Resume_connFail env p e hc, Resume_connFail env q e hc]
  | none =>
    cases he : env.exec "RESUME" 0 with
    | none => rw [Resume_success env p hc he, Resume_success env q hc he]
    | some e => rw [Resume_execFail env p e hc he, Resume_execFail env q e hc he]

lemma Pause_trace_indep (env : Env) (p q : pgBouncerInstance) :
    (Pause env p).trace = (Pause env q).trace := by
  cases hc : env.conn "pgbouncer" with
  | some e => rw [Pause_connFail env p e hc, Pause_connFail env q e hc]
  | none =>
    cases hr : retryOnError defaultBackoffSteps pauseRetryPredicate (env.exec "PAUSE") with
    | mk res n =>
      cases res with
      | none => rw [Pause_success env p n hc hr, Pause_success env q n hc hr]
      | some e => rw [Pause_execFail env p e n hc hr, Pause_execFail env q e n hc hr]

lemma Resume_trace_indep (env : Env) (p q : pgBouncerInstance) :
    (Resume env p).trace = (Resume env q).trace := by
  cases hc : env.conn "pgbouncer" with
  | some e => rw [Resume_connFail env p e hc, Resume_connFail env q e hc]
  | none =>
    cases he : env.exec "RESUME" 0 with
    | none => rw [Resume_success env p hc he, Resume_success env q hc he]
    | some e => rw [Resume_execFail env p e hc he, Resume_execFail env q e hc he]

/-- `run` keeps the flag at `true` as long as no successful `Resume`
occurs. -/
lemma run_preserves_paused (ops : List Op)
    (h : ∀ op ∈ ops, opSucceedsResume op = false) :
    ∀ p : pgBouncerInstance, p.paused = true → (run p ops).paused = true := by
  induction ops with
  | nil => intro p hp; exact hp
  | cons op ops ih =>
    intro p hp
    have hop : (applyOp p op).paused = true := by
      cases op with
      | pause env =>
        rcases Pause_cases env p with ⟨_, hs⟩ | ⟨_, hs⟩ <;> simp [applyOp, hs, hp]
      | resume env =>
        have hfail : (Resume env p).err ≠ none := by
          have hsr := h (Op.resume env) (List.mem_cons_self _ _)
          simp [opSucceedsResume, Option.isNone_iff_eq_none] at hsr
          rw [Resume_err_indep env p NewPgBouncerInstance]
          exact Option.ne_none_iff_isSome.mpr hsr
        rcases Resume_cases env p with ⟨he, _⟩ | ⟨_, hs⟩
        · exact absurd he hfail
        · simp [applyOp, hs, hp]
    exact ih (fun o ho => h o (List.mem_cons_of_mem _ ho)) (applyOp p op) hop

/-- `run` keeps the flag at `false` as long as no successful `Pause`
occurs. -/
lemma run_preserves_unpaused (ops : List Op)
    (h : ∀ op ∈ ops, opSucceedsPause op = false) :
    ∀ p : pgBouncerInstance, p.paused = false → (run p ops).paused = false := by
  induction ops with
  | nil => intro p hp; exact hp
  | cons op ops ih =>
    intro p hp
    have hop : (applyOp p op).paused = false := by
      cases op with
      | resume env =>
        rcases Resume_cases env p with ⟨_, hs⟩ | ⟨_, hs⟩ <;> simp [applyOp, hs, hp]
      | pause env =>
        have hfail : (Pause env p).err ≠ none := by
          have hsr := h (Op.pause env) (List.mem_cons_self _ _)
          simp [opSucceedsPause, Option.isNone_iff_eq_none] at hsr
          rw [Pause_err_indep env p NewPgBouncerInstance]
          exact Option.ne_none_iff_isSome.mpr hsr
        rcases Pause_cases env p with ⟨he, _⟩ | ⟨_, hs⟩
        · exact absurd he hfail
        · simp [applyOp, hs, hp]
    exact ih (fun o ho => h o (List.mem_cons_of_mem _ ho)) (applyOp p op) hop

/-- Both branches of the retry predicate return `true`. -/
lemma pauseRetryPredicate_eq_true (e : GoError) : pauseRetryPredicate e = true := by
  unfold pauseRetryPredicate
  rw [ite_self]

lemma count_exec_pause_fail_trace (n : Nat) :
    (Event.getConnection "pgbouncer" :: List.replicate n (Event.exec "PAUSE")).count
      (Event.exec "PAUSE") = n := by
  rw [List.count_cons_of_ne (by decide), List.count_replicate_self]

lemma count_exec_pause_success_trace (n : Nat) :
    (Event.getConnection "pgbouncer" :: List.replicate n (Event.exec "PAUSE")
      ++ [Event.acquireWrite, Event.releaseWrite]).count (Event.exec "PAUSE") = n := by
  rw [List.cons_append, List.count_cons_of_ne (by decide), List.count_append,
    List.count_replicate_self]
  have h0 : ([Event.acquireWrite, Event.releaseWrite] : List Event).count
      (Event.exec "PAUSE") = 0 := by decide
  rw [h0]
  omega

/-- If a trace splits as a network part (never containing an
`acquireWrite`) followed by a lock part (containing no network events),
then at any cut of the trace after which a network event still occurs,
the write lock is not held. -/
lemma writeHeld_false_of_pending_network (net lock pre suf : List Event)
    (haw : Event.acquireWrite ∉ net)
    (hlock : ∀ ev ∈ lock, ev.isNetwork = false)
    (hsplit : pre ++ suf = net ++ lock)
    (hnet : ∃ ev ∈ suf, ev.isNetwork = true) :
    writeHeld pre = false := by
  rcases List.append_eq_append_iff.mp hsplit with ⟨a2, hc, _⟩ | ⟨c2, _, hd⟩
  · have hpre : Event.acquireWrite ∉ pre := fun hm => haw (hc ▸ List.mem_append_left a2 hm)
    unfold writeHeld
    rw [List.count_eq_zero.mpr hpre]
    simp
  · obtain ⟨ev, hmem, hnet2⟩ := hnet
    have hfalse := hlock ev (hd ▸ List.mem_append_right c2 hmem)
    rw [hfalse] at hnet2
    exact Bool.noConfusion hnet2

/-- C1: after a `Pause()` call that returns success, `Paused()` returns
true, and it keeps returning true across any subsequent sequence of
operations none of which is a successful `Resume()`; once a `Resume()`
call returns success, `Paused()` returns false. -/
theorem C1_pause_sticky_until_resume (p : pgBouncerInstance) (env : Env) (ops : List Op)
    (hp : (Pause env p).err = none)
    (hops : ∀ op ∈ ops, opSucceedsResume op = false) :
    Paused (run (Pause env p).state ops) = true ∧
    ∀ env2 : Env, (Resume env2 (run (Pause env p).state ops)).err = none →
      Paused (Resume env2 (run (Pause env p).state ops)).state = false := by
  have h1 : (Pause env p).state.paused = true := by
    rcases Pause_cases env p with ⟨_, hs⟩ | ⟨hne, _⟩
    · rw [hs]
    · exact absurd hp hne
  refine ⟨run_preserves_paused ops hops (Pause env p).state h1, ?_⟩
  intro env2 hre
  rcases Resume_cases env2 (run (Pause env p).state ops) with ⟨_, hs⟩ | ⟨hne, _⟩
  · simp [Paused, hs]
  · exact absurd hre hne

/-- Witness for C1 at a concrete all-success environment. -/
theorem C1_pause_sticky_until_resume_witness :
    (Pause envOk NewPgBouncerInstance).err = none ∧
    Paused (run (Pause envOk NewPgBouncerInstance).state []) = true ∧
    Paused (Resume envOk (run (Pause envOk NewPgBouncerInstance).state [])).state = false := by
  have h := C1_pause_sticky_until_resume NewPgBouncerInstance envOk []
    (by rfl) (by intro op hop; exact absurd hop (List.not_mem_nil op))
  exact ⟨rfl, h.1, h.2 envOk (by rfl)⟩

/-- C2: the cached paused flag is updated only immediately after a
control command that reported success: on any failing path `Pause` and
`Resume` leave the state exactly as it was (so `Paused()` observers see
the pre-call state), and on success they set it to the commanded value. -/
theorem C2_flag_only_on_success (env : Env) (p : pgBouncerInstance) :
    ((Pause env p).err ≠ none → (Pause env p).state = p) ∧
    ((Resume env p).err ≠ none → (Resume env p).state = p) ∧
    ((Pause env p).err = none → (Pause env p).state = { p with paused := true }) ∧
    ((Resume env p).err = none → (Resume env p).state = { p with paused := false }) := by
  refine ⟨?_, ?_, ?_, ?_⟩
  · intro h
    rcases Pause_cases env p with ⟨he, _⟩ | ⟨_, hs⟩
    · exact absurd he h
    · exact hs
  · intro h
    rcases Resume_cases env p with ⟨he, _⟩ | ⟨_, hs⟩
    · exact absurd he h
    · exact hs
  · intro h
    rcases Pause_cases env p with ⟨_, hs⟩ | ⟨hne, _⟩
    · exact hs
    · exact absurd h hne
  · intro h
    rcases Resume_cases env p with ⟨_, hs⟩ | ⟨hne, _⟩
    · exact hs
    · exact absurd h hne

/-- Witness for C2 at a concrete failing-connection environment. -/
theorem C2_flag_only_on_success_witness :
    (Pause envConnFail NewPgBouncerInstance).state = NewPgBouncerInstance ∧
    (Resume envConnFail NewPgBouncerInstance).state = NewPgBouncerInstance :=
  ⟨(C2_flag_only_on_success envConnFail NewPgBouncerInstance).1 (by decide),
   (C2_flag_only_on_success envConnFail NewPgBouncerInstance).2.1 (by decide)⟩

/-- C3 counterexample: with a working connection and every execution
failing with the bare error "boom", `Pause()` returns exactly that bare
error after exhausting its retries, and it carries no contextual
wrapping. -/
theorem C3_pause_error_unwrapped :
    (Pause envExecFail NewPgBouncerInstance).err = some (GoError.other "boom") ∧
    isWrapped (GoError.other "boom") = false := ⟨rfl, rfl⟩

/-- C3 amended: connection-phase errors of `Pause` and `Resume`, and the
execution error of `Resume`, are returned wrapped with phase-identifying
context, and no error is swallowed; the error `Pause` returns when the
execution retries are exhausted, however, is the retry loop's error
returned as-is, without additional wrapping. -/
theorem C3_error_wrapping (env : Env) (p : pgBouncerInstance) (e : GoError) :
    (env.conn "pgbouncer" = some e →
      (Pause env p).err =
        some (GoError.wrapped "while connecting to pgbouncer database locally" e) ∧
      (Resume env p).err =
        some (GoError.wrapped "while connecting to pgbouncer database locally" e)) ∧
    (env.conn "pgbouncer" = none → env.exec "RESUME" 0 = some e →
      (Resume env p).err = some (GoError.wrapped "while resuming instance" e)) ∧
    (env.conn "pgbouncer" = none → ∀ n,
      retryOnError defaultBackoffSteps pauseRetryPredicate (env.exec "PAUSE") = (some e, n) →
      (Pause env p).err = some e) := by
  refine ⟨?_, ?_, ?_⟩
  · intro hc
    rw [Pause_connFail env p e hc, Resume_connFail env p e hc]
    exact ⟨rfl, rfl⟩
  · intro hc he
    rw [Resume_execFail env p e hc he]
  · intro hc n hr
    rw [Pause_execFail env p e n hc hr]

/-- Witness for C3's amended statement at a concrete failing-connection
environment. -/
theorem C3_error_wrapping_witness :
    (Pause envConnFail NewPgBouncerInstance).err =
      some (GoError.wrapped "while connecting to pgbouncer database locally"
        (GoError.other "connection refused")) ∧
    (Resume envConnFail NewPgBouncerInstance).err =
      some (GoError.wrapped "while connecting to pgbouncer database locally"
        (GoError.other "connection refused")) :=
  (C3_error_wrapping envConnFail NewPgBouncerInstance
    (GoError.other "connection refused")).1 rfl

/-- C4: if connection acquisition fails, `Pause` and `Resume` return the
wrapped connection error immediately, execute no control command (their
trace holds no exec event, hence no retry happens at this layer), and
leave the cached flag unchanged. -/
theorem C4_conn_fail_immediate (env : Env) (p : pgBouncerInstance) (e : GoError)
    (h : env.conn "pgbouncer" = some e) :
    (Pause env p).err =
      some (GoError.wrapped "while connecting to pgbouncer database locally" e) ∧
    (Pause env p).state = p ∧
    (Pause env p).trace = [Event.getConnection "pgbouncer"] ∧
    (∀ c, Event.exec c ∉ (Pause env p).trace) ∧
    (Resume env p).err =
      some (GoError.wrapped "while connecting to pgbouncer database locally" e) ∧
    (Resume env p).state = p ∧
    (Resume env p).trace = [Event.getConnection "pgbouncer"] ∧
    (∀ c, Event.exec c ∉ (Resume env p).trace) := by
  rw [Pause_connFail env p e h, Resume_connFail env p e h]
  refine ⟨rfl, rfl, rfl, ?_, rfl, rfl, rfl, ?_⟩ <;>
    · intro c hm
      exact Event.noConfusion (List.mem_singleton.mp hm)

/-- Witness for C4 at a concrete failing-connection environment. -/
theorem C4_conn_fail_immediate_witness :
    (Pause envConnFail NewPgBouncerInstance).trace = [Event.getConnection "pgbouncer"] ∧
    (Resume envConnFail NewPgBouncerInstance).trace = [Event.getConnection "pgbouncer"] ∧
    (Pause envConnFail NewPgBouncerInstance).state = NewPgBouncerInstance := by
  have h := C4_conn_fail_immediate envConnFail NewPgBouncerInstance
    (GoError.other "connection refused") rfl
  exact ⟨h.2.2.1, h.2.2.2.2.2.2.1, h.2.1⟩

/-- C5: `Pause`'s command execution runs under a bounded-attempt backoff
loop with budget `defaultBackoffSteps`: if every attempt within the
budget fails, the call returns the error observed on the last attempt and
the cached flag keeps its prior value, after exactly the budgeted number
of attempts; if some attempt within the budget succeeds, the call returns
success (setting the flag) with total attempts not exceeding the budget. -/
theorem C5_pause_retry_budget (env : Env) (p : pgBouncerInstance)
    (hc : env.conn "pgbouncer" = none) :
    ((∀ i, i < defaultBackoffSteps → env.exec "PAUSE" i ≠ none) →
      (Pause env p).err = env.exec "PAUSE" (defaultBackoffSteps - 1) ∧
      (Pause env p).state = p ∧
      (Pause env p).trace.count (Event.exec "PAUSE") = defaultBackoffSteps) ∧
    ((∃ i, i < defaultBackoffSteps ∧ env.exec "PAUSE" i = none) →
      (Pause env p).err = none ∧
      (Pause env p).state = { p with paused := true } ∧
      (Pause env p).trace.count (Event.exec "PAUSE") ≤ defaultBackoffSteps) := by
  constructor
  · intro hfail
    have hall : ∀ i, i < defaultBackoffSteps → env.exec "PAUSE" (0 + i) ≠ none := by
      intro i hi
      simpa using hfail i hi
    have hr := retryOnErrorAux_all_fail pauseRetryPredicate (env.exec "PAUSE")
      pauseRetryPredicate_eq_true defaultBackoffSteps 0 none (by decide) hall
    obtain ⟨e, he⟩ : ∃ e, env.exec "PAUSE" (defaultBackoffSteps - 1) = some e :=
      Option.ne_none_iff_exists'.mp (hfail (defaultBackoffSteps - 1) (by decide))
    have hr2 : retryOnError defaultBackoffSteps pauseRetryPredicate (env.exec "PAUSE") =
        (some e, defaultBackoffSteps) := by
      unfold retryOnError
      rw [hr]
      simp only [Nat.zero_add]
      rw [he]
    rw [Pause_execFail env p e defaultBackoffSteps hc hr2]
    exact ⟨by rw [he], rfl, count_exec_pause_fail_trace defaultBackoffSteps⟩
  · intro hsucc
    obtain ⟨i, hi, hok⟩ := hsucc
    have h1 : (retryOnError defaultBackoffSteps pauseRetryPredicate (env.exec "PAUSE")).1 =
        none := by
      unfold retryOnError
      exact retryOnErrorAux_success pauseRetryPredicate (env.exec "PAUSE")
        pauseRetryPredicate_eq_true defaultBackoffSteps 0 none i hi (by simpa using hok)
    have h2 : (retryOnError defaultBackoffSteps pauseRetryPredicate (env.exec "PAUSE")).2 ≤
        defaultBackoffSteps := by
      unfold retryOnError
      simpa using retryOnErrorAux_count_le pauseRetryPredicate (env.exec "PAUSE")
        defaultBackoffSteps 0 none
    cases hr : retryOnError defaultBackoffSteps pauseRetryPredicate (env.exec "PAUSE") with
    | mk res n =>
      rw [hr] at h1 h2
      simp only at h1 h2
      subst h1
      rw [Pause_success env p n hc hr]
      exact ⟨rfl, rfl, by rw [count_exec_pause_success_trace n]; exact h2⟩

/-- Witness for C5 at a concrete environment where every execution
attempt fails. -/
theorem C5_pause_retry_budget_witness :
    (Pause envExecFail NewPgBouncerInstance).err =
      envExecFail.exec "PAUSE" (defaultBackoffSteps - 1) ∧
    (Pause envExecFail NewPgBouncerInstance).state = NewPgBouncerInstance ∧
    (Pause envExecFail NewPgBouncerInstance).trace.count (Event.exec "PAUSE") =
      defaultBackoffSteps :=
  (C5_pause_retry_budget envExecFail NewPgBouncerInstance rfl).1
    (fun i hi => by simp [envExecFail])

/-- C6: `Resume` performs at most one execution attempt per call (exactly
one when the connection succeeds, none when it fails), and for every
prior cached state a single execution failure immediately yields the
wrapped error with the cached flag unchanged. -/
theorem C6_resume_single_attempt (env : Env) (p : pgBouncerInstance) :
    execCount (Resume env p).trace ≤ 1 ∧
    (env.conn "pgbouncer" = none → execCount (Resume env p).trace = 1) ∧
    (∀ e, env.conn "pgbouncer" = none → env.exec "RESUME" 0 = some e →
      (Resume env p).err = some (GoError.wrapped "while resuming instance" e) ∧
      (Resume env p).state = p) := by
  have hcases : execCount (Resume env p).trace ≤ 1 ∧
      (env.conn "pgbouncer" = none → execCount (Resume env p).trace = 1) := by
    cases hc : env.conn "pgbouncer" with
    | some e =>
      rw [Resume_connFail env p e hc]
      constructor
      · show execCount [Event.getConnection "pgbouncer"] ≤ 1
        decide
      · intro h
        exact Option.noConfusion h
    | none =>
      cases he : env.exec "RESUME" 0 with
      | some e =>
        rw [Resume_execFail env p e hc he]
        constructor
        · show execCount [Event.getConnection "pgbouncer", Event.exec "RESUME"] ≤ 1
          decide
        · intro _
          show execCount [Event.getConnection "pgbouncer", Event.exec "RESUME"] = 1
          decide
      | none =>
        rw [Resume_success env p hc he]
        constructor
        · show execCount [Event.getConnection "pgbouncer", Event.exec "RESUME",
            Event.acquireWrite, Event.releaseWrite] ≤ 1
          decide
        · intro _
          show execCount [Event.getConnection "pgbouncer", Event.exec "RESUME",
            Event.acquireWrite, Event.releaseWrite] = 1
          decide
  refine ⟨hcases.1, hcases.2, ?_⟩
  intro e hc he
  rw [Resume_execFail env p e hc he]
  exact ⟨rfl, rfl⟩

/-- Witness for C6 at a concrete environment where the execution fails. -/
theorem C6_resume_single_attempt_witness :
    execCount (Resume envExecFail NewPgBouncerInstance).trace = 1 ∧
    (Resume envExecFail NewPgBouncerInstance).err =
      some (GoError.wrapped "while resuming instance" (GoError.other "boom")) ∧
    (Resume envExecFail NewPgBouncerInstance).state = NewPgBouncerInstance := by
  have h := C6_resume_single_attempt envExecFail NewPgBouncerInstance
  exact ⟨h.2.1 rfl, (h.2.2 (GoError.other "boom") rfl rfl).1,
    (h.2.2 (GoError.other "boom") rfl rfl).2⟩

/-- C7: the retry predicate used by `Pause`'s backoff loop returns true
for every error value: it tests `errors.Is(err, os.ErrNotExist)`, but
both the matching branch and the fallthrough branch return true, so every
execution failure is classified as retryable. -/
theorem C7_retry_predicate_always_true (e : GoError) : pauseRetryPredicate e = true :=
  pauseRetryPredicate_eq_true e

/-- C8: a freshly constructed instance has its paused flag initialized to
false, and `Paused` keeps returning false through any sequence of
operations that contains no successful `Pause`. -/
theorem C8_fresh_instance_not_paused (ops : List Op)
    (h : ∀ op ∈ ops, opSucceedsPause op = false) :
    Paused NewPgBouncerInstance = false ∧
    Paused (run NewPgBouncerInstance ops) = false :=
  ⟨rfl, run_preserves_unpaused ops h NewPgBouncerInstance rfl⟩

/-- Witness for C8 with a concrete operation list containing one
successful `Resume`. -/
theorem C8_fresh_instance_not_paused_witness :
    Paused NewPgBouncerInstance = false ∧
    Paused (run NewPgBouncerInstance [Op.resume envOk]) = false :=
  C8_fresh_instance_not_paused [Op.resume envOk] (by
    intro op hop
    rw [List.mem_singleton.mp hop]
    rfl)

/-- C9: `Paused` performs no network I/O (its event trace holds only the
read-lock events), and `Pause`'s network phase runs without holding the
exclusive lock: at any cut of a `Pause` trace after which a network event
(connection acquisition or a retried execution) still occurs, the write
lock is not held, so only the final flag mutation is mutually exclusive
with reads. -/
theorem C9_network_phase_unlocked (env : Env) (p : pgBouncerInstance)
    (pre suf : List Event)
    (hsplit : (Pause env p).trace = pre ++ suf)
    (hnet : ∃ ev ∈ suf, ev.isNetwork = true) :
    (∀ ev ∈ PausedEvents, ev.isNetwork = false) ∧ writeHeld pre = false := by
  refine ⟨by decide, ?_⟩
  have hawnet : ∀ n : Nat, Event.acquireWrite ∉
      Event.getConnection "pgbouncer" :: List.replicate n (Event.exec "PAUSE") := by
    intro n hm
    rcases List.mem_cons.mp hm with h1 | h2
    · exact Event.noConfusion h1
    · exact Event.noConfusion (List.eq_of_mem_replicate h2)
  cases hc : env.conn "pgbouncer" with
  | some e =>
    rw [Pause_connFail env p e hc] at hsplit
    refine writeHeld_false_of_pending_network
      (Event.getConnection "pgbouncer" :: List.replicate 0 (Event.exec "PAUSE")) [] pre suf
      (hawnet 0) (by intro ev h; exact absurd h (List.not_mem_nil ev)) ?_ hnet
    simpa using hsplit.symm
  | none =>
    cases hr : retryOnError defaultBackoffSteps pauseRetryPredicate (env.exec "PAUSE") with
    | mk res n =>
      cases res with
      | some e =>
        rw [Pause_execFail env p e n hc hr] at hsplit
        refine writeHeld_false_of_pending_network
          (Event.getConnection "pgbouncer" :: List.replicate n (Event.exec "PAUSE")) [] pre suf
          (hawnet n) (by intro ev h; exact absurd h (List.not_mem_nil ev)) ?_ hnet
        simpa using hsplit.symm
      | none =>
        rw [Pause_success env p n hc hr] at hsplit
        refine writeHeld_false_of_pending_network
          (Event.getConnection "pgbouncer" :: List.replicate n (Event.exec "PAUSE"))
          [Event.acquireWrite, Event.releaseWrite] pre suf
          (hawnet n) (by decide) ?_ hnet
        rw [← hsplit]

/-- Witness for C9: a cut of a concrete `Pause` trace right after the
connection, with all four retried executions still pending. -/
theorem C9_network_phase_unlocked_witness :
    (Pause envExecFail NewPgBouncerInstance).trace =
      [Event.getConnection "pgbouncer"] ++ List.replicate 4 (Event.exec "PAUSE") ∧
    (∀ ev ∈ PausedEvents, ev.isNetwork = false) ∧
    writeHeld [Event.getConnection "pgbouncer"] = false := by
  have h := C9_network_phase_unlocked envExecFail NewPgBouncerInstance
    [Event.getConnection "pgbouncer"] (List.replicate 4 (Event.exec "PAUSE"))
    (by rfl) (by decide)
  exact ⟨rfl, h.1, h.2⟩

/-- C10: `Pause` and `Resume` never consult the cached flag before
acting: their error and their trace are independent of the prior state,
every call first requests a connection to the database named
"pgbouncer", and whenever the connection succeeds the literal command
"PAUSE" (resp. "RESUME") is executed — there is no short-circuit that
skips the control command when the cache already matches the target
state. -/
theorem C10_no_short_circuit (env : Env) (p q : pgBouncerInstance) :
    (Pause env p).trace = (Pause env q).trace ∧
    (Resume env p).trace = (Resume env q).trace ∧
    (Pause env p).err = (Pause env q).err ∧
    (Resume env p).err = (Resume env q).err ∧
    (Pause env p).trace.head? = some (Event.getConnection "pgbouncer") ∧
    (Resume env p).trace.head? = some (Event.getConnection "pgbouncer") ∧
    (env.conn "pgbouncer" = none →
      Event.exec "PAUSE" ∈ (Pause env p).trace ∧
      Event.exec "RESUME" ∈ (Resume env p).trace) := by
  refine ⟨Pause_trace_indep env p q, Resume_trace_indep env p q,
    Pause_err_indep env p q, Resume_err_indep env p q, ?_, ?_, ?_⟩
  · cases hc : env.conn "pgbouncer" with
    | some e => rw [Pause_connFail env p e hc]; rfl
    | none =>
      cases hr : retryOnError defaultBackoffSteps pauseRetryPredicate (env.exec "PAUSE") with
      | mk res n =>
        cases res with
        | some e => rw [Pause_execFail env p e n hc hr]; rfl
        | none => rw [Pause_success env p n hc hr]; rfl
  · cases hc : env.conn "pgbouncer" with
    | some e => rw [Resume_connFail env p e hc]; rfl
    | none =>
      cases he : env.exec "RESUME" 0 with
      | some e => rw [Resume_execFail env p e hc he]; rfl
      | none => rw [Resume_success env p hc he]; rfl
  · intro hc
    constructor
    · cases hr : retryOnError defaultBackoffSteps pauseRetryPredicate (env.exec "PAUSE") with
      | mk res n =>
        have hpos : 0 < n := by
          have h2 := (retryOnErrorAux_count_pos pauseRetryPredicate (env.exec "PAUSE")
            defaultBackoffSteps 0 none).2 (by decide)
          have h3 : retryOnErrorAux pauseRetryPredicate (env.exec "PAUSE")
              defaultBackoffSteps 0 none = (res, n) := hr
          rw [h3] at h2
          simpa using h2
        have hmem : Event.exec "PAUSE" ∈ List.replicate n (Event.exec "PAUSE") :=
          List.mem_replicate.mpr ⟨by omega, rfl⟩
        cases res with
        | some e =>
          rw [Pause_execFail env p e n hc hr]
          exact List.mem_cons_of_mem _ hmem
        | none =>
          rw [Pause_success env p n hc hr]
          exact List.mem_cons_of_mem _ (List.mem_append_left _ hmem)
    · cases he : env.exec "RESUME" 0 with
      | some e =>
        rw [Resume_execFail env p e hc he]
        exact List.mem_cons_of_mem _ (List.mem_cons_self _ _)
      | none =>
        rw [Resume_success env p hc he]
        exact List.mem_cons_of_mem _ (List.mem_cons_self _ _)

/-- Witness for C10 at a concrete all-success environment and an
already-paused prior state. -/
theorem C10_no_short_circuit_witness :
    (Pause envOk { paused := true }).trace = (Pause envOk NewPgBouncerInstance).trace ∧
    (Pause envOk { paused := true }).trace.head? = some (Event.getConnection "pgbouncer") ∧
    Event.exec "PAUSE" ∈ (Pause envOk { paused := true }).trace ∧
    Event.exec "RESUME" ∈ (Resume envOk { paused := true }).trace := by
  have h := C10_no_short_circuit envOk { paused := true } NewPgBouncerInstance
  exact ⟨h.1, h.2.2.2.2.1, (h.2.2.2.2.2.2 rfl).1, (h.2.2.2.2.2.2 rfl).2⟩
